import Mathlib

set_option linter.unusedVariables false

/-!
Verification of the `linode-github-runner` GitHub action
(`src/.github/actions/linode-machine-manager/index.js`).

The script is a single orchestration flow: on `create` it provisions a
Linode VM, waits for SSH, mints a GitHub registration token, configures
the runner over SSH and emits outputs; on `destroy` it resolves a target
instance (by id, or by search phrase over the instance list), unregisters
the runner and deletes the instance.  We embed it shallowly: every
external call (Linode API, GitHub API, SSH) is answered by a `World`
oracle, and the run produces a trace of `Event`s plus an optional failure
message (the argument of `core.setFailed`).
-/

namespace LinodeRunner

/-- JavaScript strings are modelled as lists of characters. -/
abbrev Str := List Char

/-- Decimal rendering of a natural number, as produced by JS template
interpolation of a number. -/
def natStr (n : Nat) : Str := Nat.toDigits 10 n

/-- Does `sub` occur at the very start of `hay`?  Helper for the model of
`String.prototype.includes`. -/
def leadsWith : Str → Str → Bool
  | [], _ => true
  | _ :: _, [] => false
  | a :: as, b :: bs => a == b && leadsWith as bs

/-- Scan `hay` left to right looking for an occurrence of `sub`. -/
def scanIncludes (sub : Str) : Str → Bool
  | [] => leadsWith sub []
  | c :: rest => leadsWith sub (c :: rest) || scanIncludes sub rest

/-- Model of JS `hay.includes(sub)`: substring containment. -/
def jsIncludes (hay sub : Str) : Bool := scanIncludes sub hay

/-- Model of JS `s.split(',')` (index.js line 80).  Note that JS split
never yields the empty list: `"".split(',')` is `[""]`. -/
def splitComma : Str → List Str
  | [] => [[]]
  | c :: rest =>
    if c == ',' then [] :: splitComma rest
    else
      match splitComma rest with
      | [] => [[c]]
      | h :: t => (c :: h) :: t

/-- Model of JS `String.prototype.trim` (whitespace stripped from both
ends; the claims only exercise ASCII whitespace). -/
def jsTrim (s : Str) : Str :=
  ((s.dropWhile Char.isWhitespace).reverse.dropWhile Char.isWhitespace).reverse

/-- Tag parsing, from index.js line 80:
`core.getInput('tags') ? core.getInput('tags').split(',').map(tag => tag.trim()) : []`.
The empty string is falsy, so it yields `[]`; otherwise split on commas and
trim each token.  No filtering of empty tokens is performed by the source. -/
def parseTags (s : Str) : List Str :=
  if s = [] then [] else (splitComma s).map jsTrim

/-- Result record of a successful `createLinode` call: the fields of the
response the script reads (id, ipv4).  Ids are kept as strings. -/
structure Linode where
  id : Str
  ipv4 : Str
  deriving DecidableEq, Repr

/-- An instance record as returned by `getLinodes` (the fields the script
reads: id, label, tags). -/
structure Instance where
  id : Str
  label : Str
  tags : List Str
  deriving DecidableEq, Repr

/-- A runner registration as returned by the GitHub runners endpoint; we
keep the runner id and the names of its labels
(`r.labels.some(l => l.name === runnerLabel)` only reads the names). -/
structure RunnerReg where
  id : Str
  labelNames : List Str
  deriving DecidableEq, Repr

/-- An HTTP response as far as the script reads it: status and statusText. -/
structure Resp where
  status : Nat
  statusText : Str
  deriving DecidableEq, Repr

/-- An axios error: optionally carries the response (for non-2xx statuses)
and always a message (`error.message`). -/
structure AxErr where
  response : Option Resp
  msg : Str
  deriving DecidableEq, Repr

/-- Observable effects of one invocation: external calls, outputs emitted
through `core.setOutput`, sleeps, and `core.error` logs. -/
inductive Event where
  | createInstance (typ img label : Str) (tags : List Str)
  | deleteInstance (id : Str)
  | listInstances
  | sshAttempt (ip : Str)
  | sleepMs (ms : Nat)
  | mintToken
  | getRunners
  | deleteRunnerCall (id : Str)
  | configure (ip : Str)
  | setOutput (key val : Str)
  | logError (msg : Str)
  deriving DecidableEq, Repr

/-- Oracle answering the script's external calls.  `sshOk i` tells whether
the `i`-th SSH probe (0-based) succeeds.  `deleteRunnerResult` is keyed by
runner id: `Except.ok resp` models a resolved response (axios resolves the
promise, with `resp.status` available), `Except.error e` a rejected one. -/
structure World where
  createResult : Except Str Linode
  sshOk : Nat → Bool
  mintResult : Except Str Str
  configureResult : Except Str Unit
  getRunnersResult : Except AxErr (List RunnerReg)
  deleteRunnerResult : Str → Except AxErr Resp
  listResult : Except Str (List Instance)
  deleteLinodeResult : Str → Except Str Unit

/-- The action's inputs, one field per `core.getInput` call in `run`. -/
structure Inputs where
  githubToken : Str
  action : Str
  machineId : Str
  searchPhrase : Str
  runnerLabel : Str
  rootPassword : Str
  machineType : Str
  image : Str
  tags : Str
  organization : Str
  repoName : Str

/-- The retry loop of `waitForSSH` (index.js lines 13-22): the `i`-th
attempt probes SSH; on success the loop returns `true` immediately; on
failure it sleeps `delay` milliseconds and retries, up to `rem` further
attempts. -/
def waitForSSHLoop (sshOk : Nat → Bool) (ip : Str) (delay : Nat) :
    Nat → Nat → List Event × Option Bool
  | _, 0 => ([], none)
  | i, rem + 1 =>
    if sshOk i then ([Event.sshAttempt ip], some true)
    else
      let r := waitForSSHLoop sshOk ip delay (i + 1) rem
      (Event.sshAttempt ip :: Event.sleepMs delay :: r.1, r.2)

/-- The message of the error thrown when the retry budget is exhausted
(index.js line 23). -/
def timeoutMsg (ip : Str) (retries : Nat) : Str :=
  "Unable to connect to ".toList ++ ip ++ " after ".toList ++ natStr retries
    ++ " attempts.".toList

/-- Model of `waitForSSH(ip, rootPassword, retries = 10, delay = 30000)`
(index.js lines 12-24). -/
def waitForSSH (sshOk : Nat → Bool) (ip rootPassword : Str) (retries delay : Nat) :
    List Event × Except Str Bool :=
  match waitForSSHLoop sshOk ip delay 0 retries with
  | (evs, some b) => (evs, Except.ok b)
  | (evs, none) => (evs, Except.error (timeoutMsg ip retries))

/-- The `core.error` log emitted in the catch block of `unregisterRunner`
(index.js lines 59-64): a 422 response is reported with status and
statusText, anything else with `error.message`. -/
def unregFailLog (e : AxErr) : Event :=
  match e.response with
  | some r =>
    if r.status = 422 then
      Event.logError ("Failed to unregister runner: ".toList ++ natStr r.status
        ++ " - ".toList ++ r.statusText)
    else Event.logError ("Failed to unregister runner: ".toList ++ e.msg)
  | none => Event.logError ("Failed to unregister runner: ".toList ++ e.msg)

/-- Model of `unregisterRunner` (index.js lines 26-67): fetch the runner
list, find the first runner whose labels contain `runnerLabel`, and DELETE
it.  A resolved DELETE response with status 204 is success; a resolved
non-204 response is only logged with `core.error`; a rejected request is
logged and then RE-THROWN (`throw error`, line 65). -/
def unregisterRunner (w : World) (runnerLabel : Str) : List Event × Except AxErr Unit :=
  match w.getRunnersResult with
  | Except.error e => ([Event.getRunners, unregFailLog e], Except.error e)
  | Except.ok runners =>
    match runners.find? (fun r => r.labelNames.contains runnerLabel) with
    | none => ([Event.getRunners], Except.ok ())
    | some r =>
      match w.deleteRunnerResult r.id with
      | Except.ok resp =>
        if resp.status = 204 then
          ([Event.getRunners, Event.deleteRunnerCall r.id], Except.ok ())
        else
          ([Event.getRunners, Event.deleteRunnerCall r.id,
            Event.logError ("Failed to unregister runner: ".toList ++ natStr resp.status
              ++ " - ".toList ++ resp.statusText)],
           Except.ok ())
      | Except.error e =>
        ([Event.getRunners, Event.deleteRunnerCall r.id, unregFailLog e], Except.error e)

/-- `core.getInput('runner_label') || 'self-hosted'` (index.js line 76). -/
def resolvedLabel (inp : Inputs) : Str :=
  if inp.runnerLabel = [] then "self-hosted".toList else inp.runnerLabel

/-- The destroy-by-phrase filter predicate (index.js lines 162-166):
label contains the phrase, or equals it, or the phrase is among the tags. -/
def matchesPhrase (inst : Instance) (phrase : Str) : Bool :=
  jsIncludes inst.label phrase || inst.label == phrase || inst.tags.contains phrase

/-- Message of the `ReferenceError` raised in the cleanup path: the catch
block at index.js line 190 reads `repoOwner` (and `repoName`, `githubToken`,
`baseLabel`), but those are `const`-bound INSIDE the try block (lines
72-82) and are not in scope in the catch handler, so evaluating the
`unregisterRunner(...)` argument list throws `ReferenceError: repoOwner is
not defined` before any cleanup call is made. -/
def cleanupRefError : Str := "repoOwner is not defined".toList

/-- The body of the big `try` in `run` (index.js lines 71-184).  Returns
the event trace, the value of the mutable `linodeId` binding at the point
the body finished or threw (needed by the catch block), and either success
or the thrown error's message.  Thrown axios errors surface their `.msg`
(JS `error.message`). -/
def runBody (inp : Inputs) (w : World) : List Event × Option Str × Except Str Unit :=
  let baseLabel := resolvedLabel inp
  let tags := parseTags inp.tags
  if inp.organization = [] ∨ inp.repoName = [] then
    ([], none, Except.error "Both organization and repo_name inputs are required.".toList)
  else if inp.action = "create".toList then
    match w.createResult with
    | Except.error msg =>
      ([Event.createInstance inp.machineType inp.image baseLabel tags], none,
       Except.error msg)
    | Except.ok linode =>
      let evs0 := [Event.createInstance inp.machineType inp.image baseLabel tags,
                   Event.setOutput "machine_id".toList linode.id,
                   Event.setOutput "machine_ip".toList linode.ipv4]
      match waitForSSH w.sshOk linode.ipv4 inp.rootPassword 10 30000 with
      | (sshEvs, Except.error msg) => (evs0 ++ sshEvs, some linode.id, Except.error msg)
      | (sshEvs, Except.ok _) =>
        match w.mintResult with
        | Except.error msg =>
          (evs0 ++ sshEvs ++ [Event.mintToken], some linode.id, Except.error msg)
        | Except.ok _token =>
          match w.configureResult with
          | Except.error msg =>
            (evs0 ++ sshEvs ++ [Event.mintToken, Event.configure linode.ipv4,
              Event.logError ("Runner setup failed: ".toList ++ msg)],
             some linode.id, Except.error msg)
          | Except.ok _ =>
            (evs0 ++ sshEvs ++ [Event.mintToken, Event.configure linode.ipv4,
              Event.setOutput "runner_label".toList baseLabel],
             some linode.id, Except.ok ())
  else if inp.action = "destroy".toList then
    if inp.machineId ≠ [] then
      match unregisterRunner w baseLabel with
      | (uevs, Except.error e) => (uevs, none, Except.error e.msg)
      | (uevs, Except.ok _) =>
        match w.deleteLinodeResult inp.machineId with
        | Except.error msg =>
          (uevs ++ [Event.deleteInstance inp.machineId], none, Except.error msg)
        | Except.ok _ =>
          (uevs ++ [Event.deleteInstance inp.machineId], none, Except.ok ())
    else if inp.searchPhrase ≠ [] then
      match w.listResult with
      | Except.error msg => ([Event.listInstances], none, Except.error msg)
      | Except.ok instances =>
        -- the source checks length === 1 / length === 0 / else (lines 168-177);
        -- the three list shapes below partition exactly the same way
        match instances.filter (fun inst => matchesPhrase inst inp.searchPhrase) with
        | [m] =>
          match unregisterRunner w baseLabel with
          | (uevs, Except.error e) =>
            (Event.listInstances :: uevs, none, Except.error e.msg)
          | (uevs, Except.ok _) =>
            match w.deleteLinodeResult m.id with
            | Except.error msg =>
              (Event.listInstances :: (uevs ++ [Event.deleteInstance m.id]), none,
               Except.error msg)
            | Except.ok _ =>
              (Event.listInstances :: (uevs ++ [Event.deleteInstance m.id]), none,
               Except.ok ())
        | [] =>
          ([Event.listInstances], none,
           Except.error ("No Linode instances found matching the search phrase: ".toList
             ++ inp.searchPhrase))
        | _ :: _ :: _ =>
          ([Event.listInstances], none,
           Except.error ("Multiple Linode instances found matching the search phrase: ".toList
             ++ inp.searchPhrase))
    else
      ([], none,
       Except.error "Either machine_id or search_phrase must be provided for destruction".toList)
  else
    ([], none, Except.error "Invalid action. Use \"create\" or \"destroy\".".toList)

/-- Outcome of one invocation: the event trace and the `core.setFailed`
message, `none` meaning the invocation succeeded. -/
structure RunResult where
  trace : List Event
  failed : Option Str
  deriving DecidableEq, Repr

/-- Model of `run` (index.js lines 69-198).  On an error with `linodeId`
set, the catch block enters the cleanup `try` (lines 188-195); evaluating
`unregisterRunner(repoOwner, ...)` raises a `ReferenceError` (those
`const` bindings are scoped to the outer try block, see `cleanupRefError`),
which the inner catch logs — so neither `unregisterRunner` nor
`deleteLinode` is actually called during cleanup. -/
def run (inp : Inputs) (w : World) : RunResult :=
  match runBody inp w with
  | (evs, _, Except.ok _) => ⟨evs, none⟩
  | (evs, none, Except.error msg) => ⟨evs, some msg⟩
  | (evs, some lid, Except.error msg) =>
    ⟨evs ++ [Event.logError ("Failed to destroy Linode machine ".toList ++ lid
        ++ " during cleanup: ".toList ++ cleanupRefError)],
     some msg⟩

/-- Is the event a `deleteLinode` call? -/
def isDeleteInstance : Event → Bool
  | Event.deleteInstance _ => true
  | _ => false

/-- Number of `deleteLinode` calls in a trace. -/
def deleteCalls (evs : List Event) : Nat := evs.countP isDeleteInstance

/-- Number of SSH probe attempts in a trace. -/
def countSsh (evs : List Event) : Nat :=
  evs.countP (fun e => match e with | Event.sshAttempt _ => true | _ => false)

/-- Number of sleeps in a trace. -/
def countSleeps (evs : List Event) : Nat :=
  evs.countP (fun e => match e with | Event.sleepMs _ => true | _ => false)

/-- Every sleep in the trace has duration `d` (fixed interval, no backoff). -/
def sleepsAllEq (evs : List Event) (d : Nat) : Bool :=
  evs.all (fun e => match e with | Event.sleepMs m => m == d | _ => true)

/-- Is the event a call to the cloud provider or to the CI registry? -/
def isProviderOrRegistryCall : Event → Bool
  | Event.createInstance _ _ _ _ => true
  | Event.deleteInstance _ => true
  | Event.listInstances => true
  | Event.mintToken => true
  | Event.getRunners => true
  | Event.deleteRunnerCall _ => true
  | _ => false

/-- Number of provider/registry calls in a trace. -/
def providerOrRegistryCalls (evs : List Event) : Nat :=
  evs.countP isProviderOrRegistryCall

/-- Kinds of events `unregisterRunner` can emit: the runner-list GET, the
runner DELETE, and error logs. -/
def isUnregEvent : Event → Bool
  | Event.getRunners => true
  | Event.deleteRunnerCall _ => true
  | Event.logError _ => true
  | _ => false

/-- Baseline oracle for the concrete scenarios below: every network call
fails or returns an empty answer, SSH is down, instance deletion succeeds. -/
def quietWorld : World where
  createResult := Except.error "network unreachable".toList
  sshOk := fun _ => false
  mintResult := Except.error "network unreachable".toList
  configureResult := Except.error "network unreachable".toList
  getRunnersResult := Except.ok []
  deleteRunnerResult := fun _ => Except.error ⟨none, "network unreachable".toList⟩
  listResult := Except.ok []
  deleteLinodeResult := fun _ => Except.ok ()

/-- Baseline inputs for the concrete scenarios below: a well-formed create
request. -/
def baseInputs : Inputs where
  githubToken := "ghp_token".toList
  action := "create".toList
  machineId := []
  searchPhrase := []
  runnerLabel := []
  rootPassword := "hunter2".toList
  machineType := "g6-standard-1".toList
  image := "linode/ubuntu22.04".toList
  tags := []
  organization := "acme".toList
  repoName := "widgets".toList

/-- An SSH transport that never accepts a connection. -/
def alwaysDown : Nat → Bool := fun _ => false

/-- An SSH transport whose attempts 0 and 1 fail and whose attempt 2 (and
any later one) succeeds. -/
def upAfterTwo : Nat → Bool := fun i => Nat.ble 2 i

/-- Scenario for C1: a create request in which the instance is provisioned
and every SSH probe then fails. -/
def c1Inp : Inputs := baseInputs

/-- Scenario world for C1: `createLinode` succeeds, SSH never comes up. -/
def c1World : World :=
  { quietWorld with createResult := Except.ok ⟨"12345".toList, "1.2.3.4".toList⟩ }

/-- Scenario for C2: a destroy request by machine id. -/
def c2Inp : Inputs :=
  { baseInputs with
      action := "destroy".toList,
      machineId := "42".toList }

/-- Scenario world for C2's counterexample: the runner is found and the
unregistration DELETE is rejected with a 500 response. -/
def c2World : World :=
  { quietWorld with
      getRunnersResult := Except.ok [⟨"77".toList, ["self-hosted".toList]⟩],
      deleteRunnerResult := fun _ =>
        Except.error ⟨some ⟨500, "Internal Server Error".toList⟩,
          "Request failed with status code 500".toList⟩ }

/-- Scenario world for C2's amended claim: the runner is found and the
unregistration DELETE resolves with a 200 (non-204) response. -/
def c2OkWorld : World :=
  { quietWorld with
      getRunnersResult := Except.ok [⟨"77".toList, ["self-hosted".toList]⟩],
      deleteRunnerResult := fun _ => Except.ok ⟨200, "OK".toList⟩ }

/-- Scenario for C3: a destroy-by-phrase request. -/
def c3Inp : Inputs :=
  { baseInputs with
      action := "destroy".toList,
      searchPhrase := "ci-runner-7".toList }

/-- Scenario for C7's counterexample: a create request whose machine type
and image inputs are empty. -/
def c7Inp : Inputs := { baseInputs with machineType := [], image := [] }

/-- Scenario for C7's amended claim: a request missing the organization. -/
def c7NoOrgInp : Inputs := { baseInputs with organization := [] }

/-- Scenario for C9: a create request. -/
def c9Inp : Inputs := baseInputs

/-- Scenario world for C9: `createLinode` succeeds, SSH never comes up, so
the invocation fails after the instance was provisioned. -/
def c9World : World :=
  { quietWorld with createResult := Except.ok ⟨"12345".toList, "1.2.3.4".toList⟩ }

/-- Scenario for C10: a destroy request carrying both a machine id and a
search phrase. -/
def c10Inp : Inputs :=
  { baseInputs with
      action := "destroy".toList,
      machineId := "42".toList,
      searchPhrase := "ci-runner-7".toList }

/-! ### Substring scan: correctness of the `includes` model -/

theorem leadsWith_iff (sub : Str) : ∀ hay : Str,
    leadsWith sub hay = true ↔ ∃ t, sub ++ t = hay := by
  induction sub with
  | nil => intro hay; simp [leadsWith]
  | cons a as ih =>
    intro hay
    cases hay with
    | nil => simp [leadsWith]
    | cons b bs =>
      rw [leadsWith, Bool.and_eq_true, beq_iff_eq, ih bs]
      constructor
      · rintro ⟨rfl, t, rfl⟩
        exact ⟨t, rfl⟩
      · rintro ⟨t, ht⟩
        rw [List.cons_append, List.cons.injEq] at ht
        exact ⟨ht.1, t, ht.2⟩

theorem scanIncludes_iff (sub : Str) : ∀ hay : Str,
    scanIncludes sub hay = true ↔ ∃ s t, s ++ sub ++ t = hay := by
  intro hay
  induction hay with
  | nil =>
    simp [scanIncludes, leadsWith_iff, List.append_eq_nil]
  | cons c rest ih =>
    rw [scanIncludes, Bool.or_eq_true, leadsWith_iff, ih]
    constructor
    · rintro (⟨t, ht⟩ | ⟨s, t, ht⟩)
      · exact ⟨[], t, by simpa using ht⟩
      · exact ⟨c :: s, t, by simp [ht]⟩
    · rintro ⟨s, t, hst⟩
      cases s with
      | nil => exact Or.inl ⟨t, by simpa using hst⟩
      | cons c₂ s₂ =>
        rw [List.cons_append, List.cons_append, List.cons.injEq] at hst
        exact Or.inr ⟨s₂, t, hst.2⟩

theorem jsIncludes_iff (hay sub : Str) :
    jsIncludes hay sub = true ↔ ∃ s t, s ++ sub ++ t = hay :=
  scanIncludes_iff sub hay

/-! ### The readiness-probe loop -/

theorem waitLoop_events (sshOk : Nat → Bool) (ip : Str) (delay : Nat) :
    ∀ rem i e, e ∈ (waitForSSHLoop sshOk ip delay i rem).1 →
      e = Event.sshAttempt ip ∨ e = Event.sleepMs delay := by
  intro rem
  induction rem with
  | zero => intro i e h; simp [waitForSSHLoop] at h
  | succ n ih =>
    intro i e h
    by_cases hs : sshOk i = true
    · simp [waitForSSHLoop, hs] at h
      exact Or.inl h
    · simp only [waitForSSHLoop, hs, if_false, Bool.false_eq_true, if_neg,
        List.mem_cons] at h
      rcases h with h | h | h
      · exact Or.inl h
      · exact Or.inr h
      · exact ih (i + 1) e h

theorem waitLoop_allFail (sshOk : Nat → Bool) (ip : Str) (delay : Nat)
    (h : ∀ i, sshOk i = false) :
    ∀ rem i, (waitForSSHLoop sshOk ip delay i rem).2 = none ∧
      countSsh (waitForSSHLoop sshOk ip delay i rem).1 = rem ∧
      countSleeps (waitForSSHLoop sshOk ip delay i rem).1 = rem := by
  intro rem
  induction rem with
  | zero => intro i; simp [waitForSSHLoop, countSsh, countSleeps]
  | succ n ih =>
    intro i
    obtain ⟨h1, h2, h3⟩ := ih (i + 1)
    simp only [waitForSSHLoop, h i, Bool.false_eq_true, if_neg, not_false_iff]
    refine ⟨h1, ?_, ?_⟩
    · simp [countSsh, List.countP_cons] at h2 ⊢
      omega
    · simp [countSleeps, List.countP_cons] at h3 ⊢
      omega

theorem waitLoop_failThenOk (sshOk : Nat → Bool) (ip : Str) (delay : Nat) :
    ∀ k i rem, (∀ j, j < k → sshOk (i + j) = false) → sshOk (i + k) = true →
      k < rem →
      (waitForSSHLoop sshOk ip delay i rem).2 = some true ∧
      countSsh (waitForSSHLoop sshOk ip delay i rem).1 = k + 1 ∧
      countSleeps (waitForSSHLoop sshOk ip delay i rem).1 = k := by
  intro k
  induction k with
  | zero =>
    intro i rem _ hs hlt
    obtain ⟨m, rfl⟩ : ∃ m, rem = m + 1 := ⟨rem - 1, by omega⟩
    simp only [Nat.add_zero] at hs
    simp [waitForSSHLoop, hs, countSsh, countSleeps]
  | succ n ih =>
    intro i rem hf hs hlt
    obtain ⟨m, rfl⟩ : ∃ m, rem = m + 1 := ⟨rem - 1, by omega⟩
    have h0 : sshOk i = false := by simpa using hf 0 (by omega)
    have hf2 : ∀ j, j < n → sshOk (i + 1 + j) = false := by
      intro j hj
      have he : i + 1 + j = i + (j + 1) := by omega
      rw [he]
      exact hf (j + 1) (by omega)
    have hs2 : sshOk (i + 1 + n) = true := by
      have he : i + 1 + n = i + (n + 1) := by omega
      rw [he]; exact hs
    obtain ⟨h1, h2, h3⟩ := ih (i + 1) m hf2 hs2 (by omega)
    simp only [waitForSSHLoop, h0, Bool.false_eq_true, if_neg, not_false_iff]
    refine ⟨h1, ?_, ?_⟩
    · simp [countSsh, List.countP_cons] at h2 ⊢
      omega
    · simp [countSleeps, List.countP_cons] at h3 ⊢
      omega

theorem waitLoop_sleeps (sshOk : Nat → Bool) (ip : Str) (delay rem i : Nat) :
    sleepsAllEq (waitForSSHLoop sshOk ip delay i rem).1 delay = true := by
  rw [sleepsAllEq, List.all_eq_true]
  intro e he
  rcases waitLoop_events sshOk ip delay rem i e he with h | h <;> simp [h]

/-! ### Claim theorems: string handling and the readiness probe -/

/-- Claim C4: the destroy-by-phrase match predicate holds for an instance
iff the instance's label contains the phrase as a substring, or the label
equals the phrase exactly, or the phrase is an element of the instance's
tag set. -/
theorem c4_match_policy (inst : Instance) (phrase : Str) :
    matchesPhrase inst phrase = true ↔
      (∃ s t, s ++ phrase ++ t = inst.label) ∨ inst.label = phrase ∨
        phrase ∈ inst.tags := by
  simp [matchesPhrase, jsIncludes_iff, Bool.or_eq_true, beq_iff_eq,
    List.contains, List.elem_iff, or_assoc]

/-- Claim C8 (counterexample): tag parsing is claimed never to produce an
empty token, yet the input `"a,,b"` produces one — the source trims tokens
but never filters out empty ones. -/
theorem c8_empty_token_cex : [] ∈ parseTags "a,,b".toList := by decide

/-- Claim C8 (amended): tag parsing splits on commas and trims each token,
yielding a list in which empty tokens are NOT removed: `"a, b ,c"` yields
`[a, b, c]`, `""` yields `[]`, and `"a,,b"` yields `[a, "", b]`. -/
theorem c8_tag_parsing :
    parseTags "a, b ,c".toList = ["a".toList, "b".toList, "c".toList] ∧
    parseTags "".toList = [] ∧
    parseTags "a,,b".toList = ["a".toList, [], "b".toList] := by decide

/-- Claim C5: against a transport whose first `n` connection attempts fail
and whose attempt `n` (0-based, i.e. the (n+1)-th) succeeds, with
`n < retries`, the readiness probe returns success after exactly `n + 1`
attempts, sleeps exactly `n` times, and every sleep is the fixed interval
(no exponential backoff). -/
theorem c5_probe_fail_then_succeed (sshOk : Nat → Bool) (ip pw : Str)
    (n retries delay : Nat)
    (hfail : ∀ i, i < n → sshOk i = false) (hsucc : sshOk n = true)
    (hlt : n < retries) :
    countSsh (waitForSSH sshOk ip pw retries delay).1 = n + 1 ∧
    countSleeps (waitForSSH sshOk ip pw retries delay).1 = n ∧
    (waitForSSH sshOk ip pw retries delay).2 = Except.ok true ∧
    sleepsAllEq (waitForSSH sshOk ip pw retries delay).1 delay = true := by
  have hf : ∀ j, j < n → sshOk (0 + j) = false := by
    intro j hj; simpa using hfail j hj
  have hs : sshOk (0 + n) = true := by simpa using hsucc
  obtain ⟨h1, h2, h3⟩ := waitLoop_failThenOk sshOk ip delay n 0 retries hf hs hlt
  have hsleep := waitLoop_sleeps sshOk ip delay retries 0
  unfold waitForSSH
  rcases heq : waitForSSHLoop sshOk ip delay 0 retries with ⟨evs, opt⟩
  rw [heq] at h1 h2 h3 hsleep
  replace h1 : opt = some true := h1
  subst h1
  exact ⟨h2, h3, rfl, hsleep⟩

/-- Claim C5 witness: attempts 0 and 1 fail, attempt 2 succeeds; the probe
makes 3 attempts, sleeps twice, and succeeds. -/
theorem c5_probe_witness :
    countSsh (waitForSSH upAfterTwo "192.0.2.10".toList "hunter2".toList 10 30000).1 = 3 ∧
    countSleeps (waitForSSH upAfterTwo "192.0.2.10".toList "hunter2".toList 10 30000).1 = 2 ∧
    (waitForSSH upAfterTwo "192.0.2.10".toList "hunter2".toList 10 30000).2 =
      Except.ok true ∧
    sleepsAllEq (waitForSSH upAfterTwo "192.0.2.10".toList "hunter2".toList 10 30000).1
      30000 = true :=
  c5_probe_fail_then_succeed upAfterTwo "192.0.2.10".toList "hunter2".toList 2 10 30000
    (by decide) (by decide) (by decide)

/-- Claim C6: against a transport that always fails, the readiness probe
makes exactly `retries` attempts and then raises an error whose message
names the target address and the attempt count (the source's defaults,
used by `run`, are `retries = 10`, `delay = 30000` ms). -/
theorem c6_probe_timeout (sshOk : Nat → Bool) (ip pw : Str) (retries delay : Nat)
    (h : ∀ i, sshOk i = false) :
    countSsh (waitForSSH sshOk ip pw retries delay).1 = retries ∧
    (waitForSSH sshOk ip pw retries delay).2 = Except.error (timeoutMsg ip retries) ∧
    (∃ s t, s ++ ip ++ t = timeoutMsg ip retries) ∧
    (∃ s t, s ++ natStr retries ++ t = timeoutMsg ip retries) := by
  obtain ⟨h1, h2, _⟩ := waitLoop_allFail sshOk ip delay h retries 0
  unfold waitForSSH
  rcases heq : waitForSSHLoop sshOk ip delay 0 retries with ⟨evs, opt⟩
  rw [heq] at h1 h2
  replace h1 : opt = none := h1
  subst h1
  refine ⟨h2, rfl, ?_, ?_⟩
  · exact ⟨"Unable to connect to ".toList,
      " after ".toList ++ natStr retries ++ " attempts.".toList,
      by simp [timeoutMsg]⟩
  · exact ⟨"Unable to connect to ".toList ++ ip ++ " after ".toList,
      " attempts.".toList, by simp [timeoutMsg]⟩

/-- Claim C6 witness: with the default budget (10 attempts, 30 s interval)
and SSH always down, the probe makes exactly 10 attempts and reports the
timeout message. -/
theorem c6_probe_witness :
    countSsh (waitForSSH alwaysDown "192.0.2.10".toList "hunter2".toList 10 30000).1 = 10 ∧
    (waitForSSH alwaysDown "192.0.2.10".toList "hunter2".toList 10 30000).2 =
      Except.error (timeoutMsg "192.0.2.10".toList 10) := by
  have h := c6_probe_timeout alwaysDown "192.0.2.10".toList "hunter2".toList 10 30000
    (fun _ => rfl)
  exact ⟨h.1, h.2.1⟩

/-! ### Helper lemmas about the run-level branches -/

theorem unregFailLog_logError (e : AxErr) :
    ∃ m, unregFailLog e = Event.logError m := by
  unfold unregFailLog
  split
  · split
    · exact ⟨_, rfl⟩
    · exact ⟨_, rfl⟩
  · exact ⟨_, rfl⟩

theorem isUnregEvent_unregFailLog (e : AxErr) :
    isUnregEvent (unregFailLog e) = true := by
  obtain ⟨m, hm⟩ := unregFailLog_logError e
  rw [hm]; rfl

theorem unreg_events (w : World) (lbl : Str) :
    ∀ e ∈ (unregisterRunner w lbl).1, isUnregEvent e = true := by
  intro e he
  unfold unregisterRunner at he
  repeat' split at he
  all_goals fin_cases he <;> first | rfl | exact isUnregEvent_unregFailLog _

theorem unreg_no_deleteInstance (w : World) (lbl id : Str) :
    Event.deleteInstance id ∉ (unregisterRunner w lbl).1 := by
  intro h
  have := unreg_events w lbl _ h
  simp [isUnregEvent] at this

theorem unreg_no_listInstances (w : World) (lbl : Str) :
    Event.listInstances ∉ (unregisterRunner w lbl).1 := by
  intro h
  have := unreg_events w lbl _ h
  simp [isUnregEvent] at this

theorem unreg_no_setOutput (w : World) (lbl k v : Str) :
    Event.setOutput k v ∉ (unregisterRunner w lbl).1 := by
  intro h
  have := unreg_events w lbl _ h
  simp [isUnregEvent] at this

theorem waitForSSH_fst (sshOk : Nat → Bool) (ip pw : Str) (retries delay : Nat) :
    (waitForSSH sshOk ip pw retries delay).1 =
      (waitForSSHLoop sshOk ip delay 0 retries).1 := by
  unfold waitForSSH
  rcases heq : waitForSSHLoop sshOk ip delay 0 retries with ⟨evs, opt⟩
  cases opt <;> rfl

theorem waitForSSH_no_setOutput (sshOk : Nat → Bool) (ip pw : Str)
    (retries delay : Nat) (k v : Str) :
    Event.setOutput k v ∉ (waitForSSH sshOk ip pw retries delay).1 := by
  intro h
  rw [waitForSSH_fst] at h
  rcases waitLoop_events sshOk ip delay retries 0 _ h with h2 | h2 <;> simp at h2

theorem runBody_destroy_byId (inp : Inputs) (w : World)
    (horg : inp.organization ≠ []) (hrep : inp.repoName ≠ [])
    (hact : inp.action = "destroy".toList) (hmid : inp.machineId ≠ []) :
    runBody inp w =
      (match unregisterRunner w (resolvedLabel inp) with
       | (uevs, Except.error e) => (uevs, none, Except.error e.msg)
       | (uevs, Except.ok _) =>
         match w.deleteLinodeResult inp.machineId with
         | Except.error msg =>
           (uevs ++ [Event.deleteInstance inp.machineId], none, Except.error msg)
         | Except.ok _ =>
           (uevs ++ [Event.deleteInstance inp.machineId], none, Except.ok ())) := by
  simp only [runBody]
  rw [if_neg (not_or.mpr ⟨horg, hrep⟩), hact,
    if_neg (by decide : ¬(("destroy".toList : Str) = "create".toList)),
    if_pos rfl, if_pos hmid]

theorem runBody_destroy_byPhrase (inp : Inputs) (w : World)
    (horg : inp.organization ≠ []) (hrep : inp.repoName ≠ [])
    (hact : inp.action = "destroy".toList) (hmid : inp.machineId = [])
    (hsp : inp.searchPhrase ≠ []) :
    runBody inp w =
      (match w.listResult with
       | Except.error msg => ([Event.listInstances], none, Except.error msg)
       | Except.ok instances =>
         match instances.filter (fun inst => matchesPhrase inst inp.searchPhrase) with
         | [m] =>
           match unregisterRunner w (resolvedLabel inp) with
           | (uevs, Except.error e) =>
             (Event.listInstances :: uevs, none, Except.error e.msg)
           | (uevs, Except.ok _) =>
             match w.deleteLinodeResult m.id with
             | Except.error msg =>
               (Event.listInstances :: (uevs ++ [Event.deleteInstance m.id]), none,
                Except.error msg)
             | Except.ok _ =>
               (Event.listInstances :: (uevs ++ [Event.deleteInstance m.id]), none,
                Except.ok ())
         | [] =>
           ([Event.listInstances], none,
            Except.error ("No Linode instances found matching the search phrase: ".toList
              ++ inp.searchPhrase))
         | _ :: _ :: _ =>
           ([Event.listInstances], none,
            Except.error ("Multiple Linode instances found matching the search phrase: ".toList
              ++ inp.searchPhrase))) := by
  simp only [runBody]
  rw [if_neg (not_or.mpr ⟨horg, hrep⟩), hact,
    if_neg (by decide : ¬(("destroy".toList : Str) = "create".toList)),
    if_pos rfl, if_neg (by simp [hmid]), if_pos hsp]

theorem runBody_create_ok (inp : Inputs) (w : World) (linode : Linode)
    (horg : inp.organization ≠ []) (hrep : inp.repoName ≠ [])
    (hact : inp.action = "create".toList)
    (hcr : w.createResult = Except.ok linode) :
    runBody inp w =
      (match waitForSSH w.sshOk linode.ipv4 inp.rootPassword 10 30000 with
         | (sshEvs, Except.error msg) =>
           ([Event.createInstance inp.machineType inp.image (resolvedLabel inp)
              (parseTags inp.tags),
             Event.setOutput "machine_id".toList linode.id,
             Event.setOutput "machine_ip".toList linode.ipv4] ++ sshEvs,
            some linode.id, Except.error msg)
         | (sshEvs, Except.ok _) =>
           match w.mintResult with
           | Except.error msg =>
             ([Event.createInstance inp.machineType inp.image (resolvedLabel inp)
                (parseTags inp.tags),
               Event.setOutput "machine_id".toList linode.id,
               Event.setOutput "machine_ip".toList linode.ipv4] ++ sshEvs
                ++ [Event.mintToken],
              some linode.id, Except.error msg)
           | Except.ok _token =>
             match w.configureResult with
             | Except.error msg =>
               ([Event.createInstance inp.machineType inp.image (resolvedLabel inp)
                  (parseTags inp.tags),
                 Event.setOutput "machine_id".toList linode.id,
                 Event.setOutput "machine_ip".toList linode.ipv4] ++ sshEvs
                  ++ [Event.mintToken, Event.configure linode.ipv4,
                      Event.logError ("Runner setup failed: ".toList ++ msg)],
                some linode.id, Except.error msg)
             | Except.ok _ =>
               ([Event.createInstance inp.machineType inp.image (resolvedLabel inp)
                  (parseTags inp.tags),
                 Event.setOutput "machine_id".toList linode.id,
                 Event.setOutput "machine_ip".toList linode.ipv4] ++ sshEvs
                  ++ [Event.mintToken, Event.configure linode.ipv4,
                      Event.setOutput "runner_label".toList (resolvedLabel inp)],
                some linode.id, Except.ok ())) := by
  simp only [runBody]
  rw [if_neg (not_or.mpr ⟨horg, hrep⟩), hact, if_pos rfl, hcr]

theorem rl_ne_machine_id : ("runner_label".toList : Str) ≠ "machine_id".toList := by
  decide

theorem rl_ne_machine_ip : ("runner_label".toList : Str) ≠ "machine_ip".toList := by
  decide

/-! ### Claim theorems: the orchestrator -/

/-- Claim C1 (code-bug evidence): on a create request where the instance is
provisioned and `waitForSSH` then times out, the cleanup path never calls
`deleteLinode`: the catch block's reference to the try-scoped `repoOwner`
binding raises a `ReferenceError` that the cleanup catch swallows (logging
it), so the created instance leaks; the original timeout error is still the
one reported. -/
theorem c1_cleanup_never_deletes :
    deleteCalls (run c1Inp c1World).trace = 0 ∧
    (run c1Inp c1World).failed = some (timeoutMsg "1.2.3.4".toList 10) ∧
    Event.logError ("Failed to destroy Linode machine ".toList ++ "12345".toList
      ++ " during cleanup: ".toList ++ cleanupRefError) ∈ (run c1Inp c1World).trace := by
  exact ⟨by decide, by decide, by decide⟩

/-- Claim C2 (counterexample): on a destroy-by-id request whose
unregistration DELETE is rejected with a 500 (a non-204, non-422 response),
`unregisterRunner` logs AND re-throws, so the destroy aborts and
`deleteLinode` is never invoked — contradicting the claim that such a
failure is non-fatal. -/
theorem c2_rejected_unreg_cex :
    deleteCalls (run c2Inp c2World).trace = 0 ∧
    (run c2Inp c2World).failed = some "Request failed with status code 500".toList := by
  exact ⟨by decide, by decide⟩

/-- Claim C2 (amended): on a destroy-by-id request, when the runner-list
GET resolves, a runner with the resolved label is found, and the
unregistration DELETE RESOLVES with a non-204 status, the failure is only
logged and `deleteLinode` is still invoked on the target machine id; a
REJECTED unregistration request, by contrast, is re-thrown and aborts the
destroy before `deleteLinode` (see the counterexample). -/
theorem c2_unreg_nonfatal_resolved (inp : Inputs) (w : World) (rs : List RunnerReg)
    (r : RunnerReg) (resp : Resp)
    (horg : inp.organization ≠ []) (hrep : inp.repoName ≠ [])
    (hact : inp.action = "destroy".toList) (hmid : inp.machineId ≠ [])
    (hrs : w.getRunnersResult = Except.ok rs)
    (hfind : rs.find? (fun x => x.labelNames.contains (resolvedLabel inp)) = some r)
    (hdel : w.deleteRunnerResult r.id = Except.ok resp)
    (hst : resp.status ≠ 204) :
    Event.deleteInstance inp.machineId ∈ (run inp w).trace ∧
    Event.logError ("Failed to unregister runner: ".toList ++ natStr resp.status
      ++ " - ".toList ++ resp.statusText) ∈ (run inp w).trace := by
  have hu : unregisterRunner w (resolvedLabel inp) =
      ([Event.getRunners, Event.deleteRunnerCall r.id,
        Event.logError ("Failed to unregister runner: ".toList ++ natStr resp.status
          ++ " - ".toList ++ resp.statusText)], Except.ok ()) := by
    simp only [unregisterRunner, hrs, hfind, hdel, if_neg hst]
  rcases hd2 : w.deleteLinodeResult inp.machineId with msg | u <;>
    simp only [run, runBody_destroy_byId inp w horg hrep hact hmid, hu, hd2] <;>
    simp [List.mem_append]

/-- Claim C2 witness: concrete destroy-by-id request with the DELETE
resolving as 200 OK — the failure is logged and the instance is deleted. -/
theorem c2_unreg_nonfatal_witness :
    Event.deleteInstance "42".toList ∈ (run c2Inp c2OkWorld).trace ∧
    Event.logError ("Failed to unregister runner: ".toList ++ natStr 200
      ++ " - ".toList ++ "OK".toList) ∈ (run c2Inp c2OkWorld).trace := by
  have h := c2_unreg_nonfatal_resolved c2Inp c2OkWorld
    [⟨"77".toList, ["self-hosted".toList]⟩] ⟨"77".toList, ["self-hosted".toList]⟩
    ⟨200, "OK".toList⟩ (by decide) (by decide) rfl (by decide) rfl (by decide) rfl
    (by decide)
  exact h

/-- Claim C3: on a destroy-by-phrase request whose matching set has size
different from 1, `deleteLinode` is never called: zero matches fail with
the not-found error and several matches fail with the ambiguous-match
error, in both cases without attempting any deletion. -/
theorem c3_phrase_mismatch_no_delete (inp : Inputs) (w : World)
    (instances : List Instance)
    (horg : inp.organization ≠ []) (hrep : inp.repoName ≠ [])
    (hact : inp.action = "destroy".toList) (hmid : inp.machineId = [])
    (hsp : inp.searchPhrase ≠ [])
    (hlist : w.listResult = Except.ok instances)
    (hne : (instances.filter (fun inst => matchesPhrase inst inp.searchPhrase)).length ≠ 1) :
    deleteCalls (run inp w).trace = 0 ∧
    ((instances.filter (fun inst => matchesPhrase inst inp.searchPhrase)).length = 0 →
      (run inp w).failed = some
        ("No Linode instances found matching the search phrase: ".toList
          ++ inp.searchPhrase)) ∧
    (1 < (instances.filter (fun inst => matchesPhrase inst inp.searchPhrase)).length →
      (run inp w).failed = some
        ("Multiple Linode instances found matching the search phrase: ".toList
          ++ inp.searchPhrase)) := by
  rcases hm : instances.filter (fun inst => matchesPhrase inst inp.searchPhrase)
    with _ | ⟨m, _ | ⟨m2, ms⟩⟩
  · simp only [run, runBody_destroy_byPhrase inp w horg hrep hact hmid hsp, hlist, hm]
    exact ⟨by decide, fun _ => trivial, fun h => by simp at h⟩
  · rw [hm] at hne
    exact absurd rfl hne
  · simp only [run, runBody_destroy_byPhrase inp w horg hrep hact hmid hsp, hlist, hm]
    exact ⟨by decide, fun h => by simp at h, fun _ => trivial⟩

/-- Claim C3 witness: a destroy-by-phrase request against an account with
no instances fails with the not-found message and no deletion. -/
theorem c3_phrase_witness :
    deleteCalls (run c3Inp quietWorld).trace = 0 ∧
    (run c3Inp quietWorld).failed = some
      ("No Linode instances found matching the search phrase: ".toList
        ++ "ci-runner-7".toList) := by
  have h := c3_phrase_mismatch_no_delete c3Inp quietWorld [] (by decide) (by decide)
    rfl rfl (by decide) rfl (by decide)
  exact ⟨h.1, h.2.1 rfl⟩

/-- Claim C7 (counterexample): a create request with EMPTY machine type and
image is not rejected before provider calls — the source validates only
organization/repo_name (and, on destroy, the target), so `createLinode` is
invoked with the empty sizing fields. -/
theorem c7_missing_sizing_cex :
    Event.createInstance [] [] "self-hosted".toList [] ∈ (run c7Inp quietWorld).trace ∧
    providerOrRegistryCalls (run c7Inp quietWorld).trace ≠ 0 := by
  exact ⟨by decide, by decide⟩

/-- Claim C7 (amended): input resolution fails with a configuration error,
before any provider or registry call, when the organization or repo name is
missing, when the action is neither create nor destroy, or when a destroy
request carries neither machine id nor search phrase; create requests do
NOT have their machine type or image validated locally. -/
theorem c7_validation (inp : Inputs) (w : World)
    (h : inp.organization = [] ∨ inp.repoName = [] ∨
      (inp.action ≠ "create".toList ∧ inp.action ≠ "destroy".toList) ∨
      (inp.action = "destroy".toList ∧ inp.machineId = [] ∧ inp.searchPhrase = [])) :
    providerOrRegistryCalls (run inp w).trace = 0 ∧
    (run inp w).failed.isSome = true := by
  by_cases hval : inp.organization = [] ∨ inp.repoName = []
  · simp only [run, runBody, if_pos hval]
    exact ⟨by trivial, by trivial⟩
  · rcases h with h | h | ⟨h1, h2⟩ | ⟨h1, h2, h3⟩
    · exact absurd (Or.inl h) hval
    · exact absurd (Or.inr h) hval
    · simp only [run, runBody, if_neg hval, if_neg h1, if_neg h2]
      exact ⟨by trivial, by trivial⟩
    · simp only [run, runBody, if_neg hval, h1,
        if_neg (by decide : ¬(("destroy".toList : Str) = "create".toList)),
        if_pos (rfl : ("destroy".toList : Str) = "destroy".toList),
        if_neg (not_not_intro h2), if_neg (not_not_intro h3)]
      exact ⟨by trivial, by trivial⟩

/-- Claim C7 witness: a request missing the organization fails with no
provider or registry call. -/
theorem c7_validation_witness :
    providerOrRegistryCalls (run c7NoOrgInp quietWorld).trace = 0 ∧
    (run c7NoOrgInp quietWorld).failed.isSome = true :=
  c7_validation c7NoOrgInp quietWorld (Or.inl rfl)

/-- Claim C9 (counterexample): on a create request that fails AFTER the
instance was provisioned (SSH never comes up), the `machine_id` and
`machine_ip` outputs HAVE already been set — they are emitted right after
`createLinode`, before the readiness probe — contradicting the claim that
no output is set on a failed invocation. -/
theorem c9_outputs_on_failed_create_cex :
    Event.setOutput "machine_id".toList "12345".toList ∈ (run c9Inp c9World).trace ∧
    Event.setOutput "machine_ip".toList "1.2.3.4".toList ∈ (run c9Inp c9World).trace ∧
    (run c9Inp c9World).failed.isSome = true := by
  exact ⟨by decide, by decide, by decide⟩

/-- Claim C9 (amended): `machine_id` and `machine_ip` are set as soon as
`createLinode` succeeds — hence also on create invocations that
subsequently fail — while `runner_label` is set only when the create path
completed successfully (it is the last step, after which nothing can
fail). -/
theorem c9_outputs (inp : Inputs) (w : World) (linode : Linode)
    (horg : inp.organization ≠ []) (hrep : inp.repoName ≠ [])
    (hact : inp.action = "create".toList)
    (hcr : w.createResult = Except.ok linode) :
    Event.setOutput "machine_id".toList linode.id ∈ (run inp w).trace ∧
    Event.setOutput "machine_ip".toList linode.ipv4 ∈ (run inp w).trace ∧
    ∀ v, Event.setOutput "runner_label".toList v ∈ (run inp w).trace →
      (run inp w).failed = none := by
  have hb := runBody_create_ok inp w linode horg hrep hact hcr
  have hssh0 := waitForSSH_no_setOutput w.sshOk linode.ipv4 inp.rootPassword 10 30000
  rcases hs : waitForSSH w.sshOk linode.ipv4 inp.rootPassword 10 30000 with ⟨sshEvs, sres⟩
  rw [hs] at hb
  have hsshNo : ∀ k v, Event.setOutput k v ∉ sshEvs := by
    intro k v hkv
    exact hssh0 k v (by rw [hs]; exact hkv)
  cases sres with
  | error msg =>
    simp only [run, hb]
    refine ⟨by simp [List.mem_append], by simp [List.mem_append], ?_⟩
    intro v hv
    exfalso
    simp only [List.mem_append, List.mem_cons, List.not_mem_nil, or_false] at hv
    rcases hv with ((h | h | h) | h) | h
    · simp at h
    · exact rl_ne_machine_id (by injection h)
    · exact rl_ne_machine_ip (by injection h)
    · exact hsshNo _ _ h
    · simp at h
  | ok b =>
    rcases hm : w.mintResult with msg | tok <;> rw [hm] at hb
    · simp only [run, hb]
      refine ⟨by simp [List.mem_append], by simp [List.mem_append], ?_⟩
      intro v hv
      exfalso
      simp only [List.mem_append, List.mem_cons, List.not_mem_nil, or_false] at hv
      rcases hv with (((h | h | h) | h) | h) | h
      · simp at h
      · exact rl_ne_machine_id (by injection h)
      · exact rl_ne_machine_ip (by injection h)
      · exact hsshNo _ _ h
      · simp at h
      · simp at h
    · rcases hc : w.configureResult with msg | u <;> rw [hc] at hb
      · simp only [run, hb]
        refine ⟨by simp [List.mem_append], by simp [List.mem_append], ?_⟩
        intro v hv
        exfalso
        simp only [List.mem_append, List.mem_cons, List.not_mem_nil, or_false] at hv
        rcases hv with (((h | h | h) | h) | h | h | h) | h
        · simp at h
        · exact rl_ne_machine_id (by injection h)
        · exact rl_ne_machine_ip (by injection h)
        · exact hsshNo _ _ h
        · simp at h
        · simp at h
        · simp at h
        · simp at h
      · simp only [run, hb]
        exact ⟨by simp [List.mem_append], by simp [List.mem_append], fun v _ => trivial⟩

/-- Claim C9 witness: concrete create request whose instance is provisioned
(id 12345, ip 1.2.3.4); both outputs appear in the trace. -/
theorem c9_outputs_witness :
    Event.setOutput "machine_id".toList "12345".toList ∈ (run c9Inp c9World).trace ∧
    Event.setOutput "machine_ip".toList "1.2.3.4".toList ∈ (run c9Inp c9World).trace := by
  have h := c9_outputs c9Inp c9World ⟨"12345".toList, "1.2.3.4".toList⟩
    (by decide) (by decide) rfl rfl
  exact ⟨h.1, h.2.1⟩

/-- Claim C10: on a destroy request carrying BOTH a machine id and a search
phrase, the machine id takes precedence: no instance list/search is
performed, any `deleteLinode` call targets exactly that id, and when the
unregistration step completes without throwing, the instance with that id
is indeed deleted. -/
theorem c10_machineId_precedence (inp : Inputs) (w : World)
    (horg : inp.organization ≠ []) (hrep : inp.repoName ≠ [])
    (hact : inp.action = "destroy".toList) (hmid : inp.machineId ≠ [])
    (hsp : inp.searchPhrase ≠ []) :
    Event.listInstances ∉ (run inp w).trace ∧
    (∀ i, Event.deleteInstance i ∈ (run inp w).trace → i = inp.machineId) ∧
    ((unregisterRunner w (resolvedLabel inp)).2 = Except.ok () →
      Event.deleteInstance inp.machineId ∈ (run inp w).trace) := by
  have hb := runBody_destroy_byId inp w horg hrep hact hmid
  have hev0 := unreg_events w (resolvedLabel inp)
  rcases hu : unregisterRunner w (resolvedLabel inp) with ⟨uevs, ures⟩
  rw [hu] at hb
  have hev : ∀ e ∈ uevs, isUnregEvent e = true := by
    intro e he
    exact hev0 e (by rw [hu]; exact he)
  cases ures with
  | error e =>
    simp only [run, hb]
    refine ⟨?_, ?_, ?_⟩
    · intro hmem
      have := hev _ hmem
      simp [isUnregEvent] at this
    · intro i hmem
      have := hev _ hmem
      simp [isUnregEvent] at this
    · intro hok
      simp at hok
  | ok u =>
    rcases hd : w.deleteLinodeResult inp.machineId with msg | u2 <;>
      simp only [run, hb, hd] <;>
      refine ⟨?_, ?_, fun _ => by simp [List.mem_append]⟩ <;>
      first
        | (intro hmem
           rcases List.mem_append.mp hmem with h | h
           · have := hev _ h
             simp [isUnregEvent] at this
           · simp at h)
        | (intro i hmem
           rcases List.mem_append.mp hmem with h | h
           · have := hev _ h
             simp [isUnregEvent] at this
           · simpa using h)

/-- Claim C10 witness: concrete destroy request with both id 42 and a
phrase; no instance listing happens and instance 42 is deleted. -/
theorem c10_precedence_witness :
    Event.listInstances ∉ (run c10Inp quietWorld).trace ∧
    Event.deleteInstance "42".toList ∈ (run c10Inp quietWorld).trace := by
  have h := c10_machineId_precedence c10Inp quietWorld (by decide) (by decide) rfl
    (by decide) (by decide)
  exact ⟨h.1, h.2.2 rfl⟩

end LinodeRunner
